/-
Verification of the transaction-replication core (pkg/replication, TxReplicator).

The definitions below are a shallow embedding of the Go source file
containing the TxReplicator: its state is modelled as a record of the
fields the replicator mutates, and every external call (remote client,
local store, chunk receiver) is modelled by an oracle record supplying
that call's result, so each Go function becomes a pure Lean function of
the current state and the oracle.  Go errors are modelled by an inductive
type distinguishing the sentinel errors (compared by identity in Go) from
dynamically created errors carrying a message; substring classification
(`strings.Contains`) is embedded verbatim.  uint64 arithmetic is carried
out modulo 2^64 as in Go.
-/
import Mathlib

namespace Replication

/-- Modulus of Go's uint64 arithmetic. -/
def U64 : Nat := 2 ^ 64

/-- Embedding of Go's strings.Contains: true iff needle occurs contiguously in hay. -/
def strContains (hay needle : String) : Bool :=
  let h := hay.toList
  let n := needle.toList
  (List.range (h.length + 1)).any fun i => ((h.drop i).take n.length) == n

/-- Embedding of Go's binary.BigEndian.Uint64: combine the first eight bytes,
most significant first (the Go function requires at least eight bytes). -/
def beUint64 (bs : List Nat) : Nat :=
  (bs.take 8).foldl (fun acc b => acc * 256 + b) 0

/-- Embedding of copying a byte slice into a zeroed 32-byte array
(`var a [32]byte; copy(a, bs)`): first 32 bytes of bs, zero padded. -/
def copy32 (bs : List Nat) : List Nat :=
  bs.take 32 ++ List.replicate (32 - bs.length) 0

/-- Message of the committed-state divergence error tested by fetchNextTx. -/
def commitDivergedMsg : String := "follower commit state diverged from master's"

/-- Message of the precommitted-state divergence error tested by fetchNextTx. -/
def precommitDivergedMsg : String := "follower precommit state diverged from master's"

/-- Message signalling idempotent success, tested by the applier workers. -/
def alreadyCommittedMsg : String := "tx already committed"

/-- Message of the error built by fetchNextTx when a sync-mode trailer key is missing. -/
def masterNotSyncMsg : String := "master is not running with synchronous replication"

/-- Go errors as the replicator distinguishes them: the package-level sentinel
errors are compared by identity (`err == ErrAlreadyStopped`), every other error
only by its message, so dynamically created errors get their own constructor. -/
inductive GoErr where
  | errIllegalArguments
  | errAlreadyRunning
  | errAlreadyStopped
  | errFollowerDivergedFromMaster
  | errEOF
  | errOther (msg : String)
deriving DecidableEq, Repr

/-- The string returned by err.Error() for each modelled error. -/
def GoErr.message : GoErr → String
  | .errIllegalArguments => "illegal arguments"
  | .errAlreadyRunning => "already running"
  | .errAlreadyStopped => "already stopped"
  | .errFollowerDivergedFromMaster => "follower diverged from master"
  | .errEOF => "EOF"
  | .errOther msg => msg

/-- Embedding of `strings.Contains(err.Error(), sub)`. -/
def errContains (e : GoErr) (sub : String) : Bool :=
  strContains e.message sub

/-- CommitState returned by LocalStore.CurrentState. -/
structure CommitState where
  txId : Nat
  txHash : List Nat
  precommittedTxId : Nat
  precommittedTxHash : List Nat
deriving DecidableEq, Repr

/-- FollowerState attached to an ExportTx request in sync mode. -/
structure FollowerState where
  uuid : String
  committedTxID : Nat
  committedAlh : List Nat
  precommittedTxID : Nat
  precommittedAlh : List Nat
deriving DecidableEq, Repr

/-- The mutable runtime state of a TxReplicator: each field embeds one of the
Go struct's mutable fields (pointer fields become booleans recording whether
the pointer is nil; the cancellation token is recorded as a cancelled flag). -/
structure TxReplicator where
  uuid : String
  running : Bool
  cancelFuncSet : Bool
  tokenCancelled : Bool
  clientConnected : Bool
  clientContextSet : Bool
  lastTx : Nat
  consecutiveFailures : Nat
  allowTxDiscarding : Bool
  queueClosed : Bool
deriving DecidableEq, Repr

/-- State of a freshly constructed replicator (NewTxReplicator). -/
def newTxReplicator (uuid : String) (allowDiscard : Bool) : TxReplicator :=
  ⟨uuid, false, false, false, false, false, 0, 0, allowDiscard, false⟩

/-- Oracle for the three remote-client calls performed by connect:
NewImmuClient, Login, UseDatabase (none = the call succeeded). -/
structure ConnectEnv where
  newClientErr : Option GoErr
  loginErr : Option GoErr
  useDatabaseErr : Option GoErr
deriving DecidableEq, Repr

/-- Oracle for one fetchNextTx iteration: results of every external call the
iteration may perform.  trailerTxid and trailerAlh are the metadata values
returned by md.Get on the two sync-replication trailer keys. -/
structure FetchEnv where
  connectEnv : ConnectEnv
  stateErr : Option GoErr
  commitState : CommitState
  syncEnabled : Bool
  exportErr : Option GoErr
  discardErr : Option GoErr
  readErr : Option GoErr
  etx : List Nat
  trailerTxid : List (List Nat)
  trailerAlh : List (List Nat)
  allowCommitErr : Option GoErr
deriving DecidableEq, Repr

/-- Observable side effects of one fetchNextTx iteration: which collaborator
calls were made and with which arguments. -/
structure FetchEffects where
  connectCalled : Bool := false
  requestedTx : Option Nat := none
  requestFollowerState : Option FollowerState := none
  requestAllowPreCommitted : Option Bool := none
  discardCalledWith : Option Nat := none
  allowCommitCalledWith : Option (Nat × List Nat) := none
  enqueued : List (List Nat) := []
deriving DecidableEq, Repr

/-- Result of one fetchNextTx iteration. -/
structure FetchResult where
  err : Option GoErr
  state : TxReplicator
  effects : FetchEffects
deriving DecidableEq, Repr

/-- Embedding of connect(): NewImmuClient, Login, UseDatabase in sequence;
the clientContext field is assigned right after a successful Login, the
client field only after all three calls succeeded. -/
def connect (txr : TxReplicator) (env : ConnectEnv) : Option GoErr × TxReplicator :=
  match env.newClientErr with
  | some e => (some e, txr)
  | none =>
    match env.loginErr with
    | some e => (some e, txr)
    | none =>
      let txr1 := { txr with clientContextSet := true }
      match env.useDatabaseErr with
      | some e => (some e, txr1)
      | none => (none, { txr1 with clientConnected := true })

/-- Embedding of disconnect(): returns at once when the client is nil,
otherwise logs out, disconnects and clears the client field. -/
def disconnect (txr : TxReplicator) : TxReplicator :=
  if txr.clientConnected then { txr with clientConnected := false } else txr

/-- Oracle for handleError: whether the cancellation token fired before the
backoff timer in the select. -/
structure HandleEnv where
  cancelledDuringWait : Bool
deriving DecidableEq, Repr

/-- Embedding of handleError(err): returns (terminate, new state, whether
disconnect() was invoked).  nil resets the failure counter; otherwise the
counter is incremented, the delayer wait is selected against the token
(cancellation terminates), and after three or more consecutive failures
disconnect() is invoked. -/
def handleError (txr : TxReplicator) (err : Option GoErr) (env : HandleEnv) :
    Bool × TxReplicator × Bool :=
  match err with
  | none => (false, { txr with consecutiveFailures := 0 }, false)
  | some _ =>
    let txr1 := { txr with consecutiveFailures := txr.consecutiveFailures + 1 }
    if env.cancelledDuringWait then
      (true, txr1, false)
    else if txr1.consecutiveFailures ≥ 3 then
      (false, disconnect txr1, true)
    else
      (false, txr1, false)

/-- Embedding of Start() restricted to its state change: reject when already
running, else create the cancellation token and set running (goroutine spawning
is modelled separately by supervisorLoopStep and the applier functions). -/
def Start (txr : TxReplicator) : Option GoErr × TxReplicator :=
  if txr.running then (some GoErr.errAlreadyRunning, txr)
  else (none, { txr with running := true, cancelFuncSet := true, tokenCancelled := false })

/-- Observable side effects of Stop(). -/
structure StopEffects where
  cancelInvoked : Bool := false
  queueClosedNow : Bool := false
  disconnectInvoked : Bool := false
deriving DecidableEq, Repr

/-- Embedding of Stop(): invoke the cancellation function when it is non-nil,
then under the lock return AlreadyStopped when not running; otherwise close the
handoff queue, disconnect and clear running. -/
def Stop (txr : TxReplicator) : Option GoErr × TxReplicator × StopEffects :=
  let ci := txr.cancelFuncSet
  let txr1 := if txr.cancelFuncSet then { txr with tokenCancelled := true } else txr
  if txr1.running then
    let txr2 := { txr1 with queueClosed := true }
    let txr3 := disconnect txr2
    (none, { txr3 with running := false },
      { cancelInvoked := ci, queueClosedNow := true, disconnectInvoked := true })
  else
    (some GoErr.errAlreadyStopped, txr1, { cancelInvoked := ci })

/-- Embedding of the tail of fetchNextTx (lines around the handoff): when the
exported payload is non-empty it is sent into the handoff queue and lastTx is
incremented (modulo 2^64); an empty payload advances nothing. -/
def finishFetch (txr : TxReplicator) (env : FetchEnv) (eff : FetchEffects) : FetchResult :=
  if env.etx.length > 0 then
    ⟨none, { txr with lastTx := (txr.lastTx + 1) % U64 }, { eff with enqueued := [env.etx] }⟩
  else
    ⟨none, txr, eff⟩

/-- Embedding of the error-classification block run when the ExportTx call
itself failed: committed divergence is fatal; precommitted divergence is fatal
unless tx discarding is allowed, in which case DiscardPrecommittedTxsSince is
invoked with committedTxId+1 and — because the Go code reassigns err with the
discard result before the final `return err` — a successful discard makes the
function return nil. -/
def handleExportError (txr : TxReplicator) (commitTxId : Nat) (e : GoErr)
    (discardErr : Option GoErr) (eff : FetchEffects) : FetchResult :=
  if errContains e commitDivergedMsg then
    ⟨some GoErr.errFollowerDivergedFromMaster, txr, eff⟩
  else if errContains e precommitDivergedMsg then
    if txr.allowTxDiscarding then
      let eff1 := { eff with discardCalledWith := some ((commitTxId + 1) % U64) }
      match discardErr with
      | some e2 => ⟨some e2, txr, eff1⟩
      | none => ⟨none, txr, eff1⟩
    else
      ⟨some GoErr.errFollowerDivergedFromMaster, txr, eff⟩
  else
    ⟨some e, txr, eff⟩

/-- Embedding of the AllowCommitUpto call and its error handling inside the
sync-mode trailer block: a committed divergence from the call is reclassified
as the fatal divergence error, any other error is returned unchanged, and on
success control falls through to the handoff step. -/
def allowCommitStep (txr : TxReplicator) (env : FetchEnv) (eff1 : FetchEffects) : FetchResult :=
  match env.allowCommitErr with
  | some e =>
    if errContains e commitDivergedMsg then
      ⟨some GoErr.errFollowerDivergedFromMaster, txr, eff1⟩
    else
      ⟨some e, txr, eff1⟩
  | none => finishFetch txr env eff1

/-- Effects extended with the AllowCommitUpto arguments decoded from the
trailer: the big-endian tx id from the first value under the txid key and the
32-byte copy of the first value under the alh key. -/
def trailerEffects (env : FetchEnv) (eff : FetchEffects) : FetchEffects :=
  { eff with allowCommitCalledWith := some (beUint64 (env.trailerTxid.headD []), copy32 (env.trailerAlh.headD [])) }

/-- Embedding of the sync-mode trailer block: both trailer keys must have a
value, the tx id is decoded big-endian from the first value, the ALH is copied
into a 32-byte array, and when the tx id is positive AllowCommitUpto is
invoked with exactly those two values. -/
def handleTrailer (txr : TxReplicator) (env : FetchEnv) (eff : FetchEffects) : FetchResult :=
  if env.trailerTxid = [] ∨ env.trailerAlh = [] then
    ⟨some (GoErr.errOther masterNotSyncMsg), txr, eff⟩
  else if beUint64 (env.trailerTxid.headD []) > 0 then
    allowCommitStep txr env (trailerEffects env eff)
  else
    finishFetch txr env eff

/-- Continuation of fetchNextTx after the chunk stream was read: the trailer is
inspected only in sync mode. -/
def afterRead (txr : TxReplicator) (env : FetchEnv) (sync : Bool) (eff : FetchEffects) : FetchResult :=
  if sync then handleTrailer txr env eff else finishFetch txr env eff

/-- The replicator state after the lastTx-initialisation step of fetchNextTx:
when lastTx is zero it is set to the store's precommitted tx id. -/
def txrInit (txr : TxReplicator) (env : FetchEnv) : TxReplicator :=
  if txr.lastTx = 0 then { txr with lastTx := env.commitState.precommittedTxId } else txr

/-- The ExportTx request composed by fetchNextTx, recorded as effects: the
next tx id, the FollowerState derived from the sampled commit state when sync
replication is enabled, and AllowPreCommitted equal to the sync flag. -/
def requestEffects (txr1 : TxReplicator) (env : FetchEnv) (cc : Bool) : FetchEffects :=
  { connectCalled := cc,
    requestedTx := some ((txr1.lastTx + 1) % U64),
    requestFollowerState :=
      if env.syncEnabled then
        some ⟨txr1.uuid, env.commitState.txId, env.commitState.txHash,
              env.commitState.precommittedTxId, env.commitState.precommittedTxHash⟩
      else none,
    requestAllowPreCommitted := some env.syncEnabled }

/-- Body of fetchNextTx once a client is available: sample the local commit
state, initialise lastTx from the precommitted tx id when it is zero, compose
the ExportTx request (FollowerState attached and precommitted txs allowed
exactly in sync mode), then classify the export error or read the stream. -/
def fetchWithClient (txr : TxReplicator) (env : FetchEnv) (cc : Bool) : FetchResult :=
  match env.stateErr with
  | some e => ⟨some e, txr, { connectCalled := cc }⟩
  | none =>
    let txr1 := txrInit txr env
    let eff := requestEffects txr1 env cc
    match env.exportErr with
    | some e => handleExportError txr1 env.commitState.txId e env.discardErr eff
    | none =>
      match env.readErr with
      | some re =>
        if re = GoErr.errEOF then afterRead txr1 env env.syncEnabled eff
        else ⟨some re, txr1, eff⟩
      | none => afterRead txr1 env env.syncEnabled eff

/-- Connection guard of fetchNextTx: when the client field is nil the full
connect sequence is re-run; a connect failure is returned unchanged. -/
def fetchConnected (txr : TxReplicator) (env : FetchEnv) : FetchResult :=
  if txr.clientConnected then
    fetchWithClient txr env false
  else
    match (connect txr env.connectEnv).1 with
    | some e => ⟨some e, (connect txr env.connectEnv).2, { connectCalled := true }⟩
    | none => fetchWithClient (connect txr env.connectEnv).2 env true

/-- Embedding of fetchNextTx: guard on running, then the connected body. -/
def fetchNextTx (txr : TxReplicator) (env : FetchEnv) : FetchResult :=
  if txr.running then fetchConnected txr env
  else ⟨some GoErr.errAlreadyStopped, txr, {}⟩

/-- Iterate fetchNextTx over a list of per-iteration oracles, threading the
replicator state and collecting each iteration's result. -/
def runFetches (txr : TxReplicator) : List FetchEnv → TxReplicator × List FetchResult
  | [] => (txr, [])
  | env :: rest =>
    let r := fetchNextTx txr env
    let rr := runFetches r.state rest
    (rr.1, r :: rr.2)

/-- Reaction of the supervisor goroutine (spawned by Start) to one fetch
result, per the source loop. -/
inductive LoopAction where
  | exitGoroutine
  | stopReplicatorAndExit
  | handleAndContinue
deriving DecidableEq, Repr

/-- Classification performed by the supervisor loop on fetchNextTx's result:
ErrAlreadyStopped exits the goroutine, ErrFollowerDivergedFromMaster initiates
Stop and exits, anything else goes to handleError. -/
def superviseFetchResult (err : Option GoErr) : LoopAction :=
  if err = some GoErr.errAlreadyStopped then LoopAction.exitGoroutine
  else if err = some GoErr.errFollowerDivergedFromMaster then LoopAction.stopReplicatorAndExit
  else LoopAction.handleAndContinue

/-- One turn of the supervisor loop: returns (new state, whether Stop was
invoked, whether the goroutine exits). -/
def supervisorLoopStep (txr : TxReplicator) (err : Option GoErr) (henv : HandleEnv) :
    TxReplicator × Bool × Bool :=
  match superviseFetchResult err with
  | LoopAction.exitGoroutine => (txr, false, true)
  | LoopAction.stopReplicatorAndExit => ((Stop txr).2.1, true, true)
  | LoopAction.handleAndContinue =>
    let h := handleError txr err henv
    (h.2.1, false, h.1)

/-- Oracle for one attempt of an applier worker's retry loop: the result of
db.ReplicateTx and whether cancellation fired during the backoff select. -/
structure ApplyAttempt where
  replicateErr : Option GoErr
  cancelledDuringBackoff : Bool
deriving DecidableEq, Repr

/-- Outcome of an applier worker's retry loop for one dequeued payload. -/
inductive ApplierOutcome where
  | applied
  | workerExit
  | retrying
deriving DecidableEq, Repr

/-- Embedding of the applier worker's per-payload retry loop, threading the
worker-local consecutiveFailures counter: success breaks, ErrAlreadyStopped
(identity comparison) exits the worker, a "tx already committed" message breaks
as idempotent success, otherwise the counter is incremented and the backoff is
selected against the token (cancellation exits the worker).  An exhausted
oracle means the loop is still retrying. -/
def applyPayloadLoopAux (n : Nat) : List ApplyAttempt → ApplierOutcome × Nat
  | [] => (ApplierOutcome.retrying, n)
  | a :: rest =>
    match a.replicateErr with
    | none => (ApplierOutcome.applied, n)
    | some e =>
      if e = GoErr.errAlreadyStopped then (ApplierOutcome.workerExit, n)
      else if errContains e alreadyCommittedMsg then (ApplierOutcome.applied, n)
      else if a.cancelledDuringBackoff then (ApplierOutcome.workerExit, n + 1)
      else applyPayloadLoopAux (n + 1) rest

/-- An applier worker processing one dequeued payload: the retry loop starts a
fresh local failure counter and the replicator state is not written at all (the
worker only reads db, delayer, logger and the token). -/
def applierProcessPayload (txr : TxReplicator) (attempts : List ApplyAttempt) :
    ApplierOutcome × Nat × TxReplicator :=
  let r := applyPayloadLoopAux 0 attempts
  (r.1, r.2, txr)

/-- An attempt that neither succeeds nor terminates the loop: ReplicateTx
failed with an error that is not the stopped sentinel and does not signal
idempotent success, and the backoff was not cancelled. -/
def isTransientAttempt (a : ApplyAttempt) : Bool :=
  match a.replicateErr with
  | none => false
  | some e =>
    if e = GoErr.errAlreadyStopped then false
    else if errContains e alreadyCommittedMsg then false
    else if a.cancelledDuringBackoff then false
    else true

/-- The blocking waits performed by the replicator, one constructor per wait
site in the source. -/
inductive BlockingWait where
  | handleErrorBackoffTimer
  | applierBackoffTimer
  | applierQueueReceive
  | fetcherQueueSend
  | clientDial
  | rpcLogin
  | rpcUseDatabase
  | rpcExportTx
  | streamRead
deriving DecidableEq, Repr

/-- Whether each wait site is selectable against the replicator's cancellation
token, read off the source: the two backoff timers sit in a select with
mainContext.Done(); Login, UseDatabase, ExportTx and the chunk reads take a
context derived from mainContext; the applier dequeue is a plain range over the
channel (unblocked only by closing the queue), the fetcher's handoff send is a
plain channel send, and NewImmuClient dials without the replicator's context. -/
def selectableOnCancellationToken : BlockingWait → Bool
  | BlockingWait.handleErrorBackoffTimer => true
  | BlockingWait.applierBackoffTimer => true
  | BlockingWait.applierQueueReceive => false
  | BlockingWait.fetcherQueueSend => false
  | BlockingWait.clientDial => false
  | BlockingWait.rpcLogin => true
  | BlockingWait.rpcUseDatabase => true
  | BlockingWait.rpcExportTx => true
  | BlockingWait.streamRead => true

/-- The value lastTx holds after the zero-initialisation step of an iteration:
the store's precommitted tx id when lastTx is zero, lastTx itself otherwise. -/
def effLastTx (txr : TxReplicator) (env : FetchEnv) : Nat :=
  if txr.lastTx = 0 then env.commitState.precommittedTxId else txr.lastTx

/-! ### Concrete states and oracles used by witnesses and counterexamples -/

/-- A uuid used by the concrete test states. -/
def testUuid : String := "u"

/-- A generic transient error message used by the concrete test oracles. -/
def testErrMsg : String := "connection reset"

/-- A generic local-store error message used by the concrete test oracles. -/
def discardFailedMsg : String := "discard failed"

def c1txr : TxReplicator := ⟨testUuid, true, true, false, true, true, 7, 0, true, false⟩

def c1env : FetchEnv :=
  ⟨⟨none, none, none⟩, none, ⟨2, [], 7, []⟩, false,
    some (GoErr.errOther precommitDivergedMsg), none, none, [], [], [], none⟩

def c1wtxr : TxReplicator := ⟨testUuid, true, true, false, true, true, 9, 1, true, false⟩

def c1wenv : FetchEnv :=
  ⟨⟨none, none, none⟩, none, ⟨5, [], 9, []⟩, false,
    some (GoErr.errOther precommitDivergedMsg), some (GoErr.errOther discardFailedMsg),
    none, [], [], [], none⟩

def c2txr : TxReplicator := ⟨testUuid, true, true, false, true, true, 0, 0, false, false⟩

def c2envE : FetchEnv :=
  ⟨⟨none, none, none⟩, none, ⟨4, [], 4, []⟩, false, none, none, none, [], [], [], none⟩

def c2envN : FetchEnv :=
  ⟨⟨none, none, none⟩, none, ⟨4, [], 4, []⟩, false, none, none, none, [9], [], [], none⟩

def w2txr : TxReplicator := ⟨testUuid, true, true, false, true, true, 0, 0, false, false⟩

def w2env1 : FetchEnv :=
  ⟨⟨none, none, none⟩, none, ⟨4, [], 4, []⟩, false, none, none, none, [1], [], [], none⟩

def w2env2 : FetchEnv :=
  ⟨⟨none, none, none⟩, none, ⟨4, [], 4, []⟩, false, none, none, none, [2], [], [], none⟩

def w4txid : List Nat := [0, 0, 0, 0, 0, 0, 0, 5]

def w4alh : List Nat := List.replicate 32 7

def w4txr : TxReplicator := ⟨testUuid, true, true, false, true, true, 3, 0, false, false⟩

def w4env : FetchEnv :=
  ⟨⟨none, none, none⟩, none, ⟨2, [], 3, []⟩, true, none, none, none, [],
    [w4txid], [w4alh], some (GoErr.errOther commitDivergedMsg)⟩

def c5txr : TxReplicator := ⟨testUuid, true, true, false, true, true, 3, 0, false, false⟩

def c5env : FetchEnv :=
  ⟨⟨none, none, none⟩, none, ⟨2, [], 3, []⟩, false,
    some (GoErr.errOther commitDivergedMsg), none, none, [], [], [], none⟩

def c5henv : HandleEnv := ⟨false⟩

def c6txr : TxReplicator := ⟨testUuid, true, true, false, true, true, 3, 2, false, false⟩

def c6err : GoErr := GoErr.errOther testErrMsg

def c6env : HandleEnv := ⟨false⟩

def c7txr : TxReplicator := ⟨testUuid, true, true, false, true, true, 3, 0, false, false⟩

def c7env : FetchEnv :=
  ⟨⟨none, none, none⟩, none, ⟨2, [], 3, []⟩, true, none, none, none, [5], [], [], none⟩

def c8txr : TxReplicator := ⟨testUuid, true, true, false, true, true, 3, 5, false, false⟩

def c8pre : List ApplyAttempt := [⟨some (GoErr.errOther testErrMsg), false⟩]

def c8ok : ApplyAttempt := ⟨none, false⟩

def c9txr : TxReplicator := newTxReplicator testUuid false

def c10txr : TxReplicator := ⟨testUuid, true, true, false, false, false, 3, 0, false, false⟩

def c10cenv : ConnectEnv := ⟨none, some (GoErr.errOther testErrMsg), none⟩

def c10env : FetchEnv :=
  ⟨c10cenv, none, ⟨2, [], 3, []⟩, false, none, none, none, [], [], [], none⟩

/-! ### Helper lemmas about the embedded operations -/

lemma connect_frame (txr : TxReplicator) (cenv : ConnectEnv) :
    (connect txr cenv).2.lastTx = txr.lastTx
    ∧ (connect txr cenv).2.running = txr.running
    ∧ (connect txr cenv).2.uuid = txr.uuid
    ∧ (connect txr cenv).2.allowTxDiscarding = txr.allowTxDiscarding
    ∧ (connect txr cenv).2.consecutiveFailures = txr.consecutiveFailures := by
  unfold connect
  cases cenv.newClientErr <;> cases cenv.loginErr <;> cases cenv.useDatabaseErr <;> simp

lemma disconnect_frame (txr : TxReplicator) :
    (disconnect txr).consecutiveFailures = txr.consecutiveFailures
    ∧ (disconnect txr).running = txr.running
    ∧ (disconnect txr).lastTx = txr.lastTx := by
  unfold disconnect
  split <;> simp

lemma fetchNextTx_connected (txr : TxReplicator) (env : FetchEnv)
    (hrun : txr.running = true) (hconn : txr.clientConnected = true) :
    fetchNextTx txr env = fetchWithClient txr env false := by
  unfold fetchNextTx fetchConnected
  rw [hrun, hconn]
  simp

lemma fetchWithClient_exportErr (txr : TxReplicator) (env : FetchEnv) (e : GoErr) (cc : Bool)
    (hstate : env.stateErr = none) (hexp : env.exportErr = some e) :
    fetchWithClient txr env cc =
      handleExportError (txrInit txr env) env.commitState.txId e env.discardErr
        (requestEffects (txrInit txr env) env cc) := by
  unfold fetchWithClient
  rw [hstate, hexp]

lemma fetchWithClient_okPath (txr : TxReplicator) (env : FetchEnv) (cc : Bool)
    (hstate : env.stateErr = none) (hexp : env.exportErr = none) (hread : env.readErr = none) :
    fetchWithClient txr env cc =
      afterRead (txrInit txr env) env env.syncEnabled
        (requestEffects (txrInit txr env) env cc) := by
  unfold fetchWithClient
  rw [hstate, hexp, hread]

lemma handleExportError_commit (txr : TxReplicator) (c : Nat) (e : GoErr)
    (d : Option GoErr) (eff : FetchEffects)
    (hcom : errContains e commitDivergedMsg = true) :
    handleExportError txr c e d eff = ⟨some GoErr.errFollowerDivergedFromMaster, txr, eff⟩ := by
  unfold handleExportError
  rw [hcom]
  simp

lemma handleExportError_precommit (txr : TxReplicator) (c : Nat) (e : GoErr)
    (d : Option GoErr) (eff : FetchEffects)
    (hcom : errContains e commitDivergedMsg = false)
    (hpre : errContains e precommitDivergedMsg = true)
    (hdisc : txr.allowTxDiscarding = true) :
    handleExportError txr c e d eff =
      ⟨d, txr, { eff with discardCalledWith := some ((c + 1) % U64) }⟩ := by
  unfold handleExportError
  rw [hcom, hpre, hdisc]
  cases d <;> simp

lemma finishFetch_adv (txr : TxReplicator) (env : FetchEnv) (eff : FetchEffects)
    (he : eff.enqueued = []) :
    (finishFetch txr env eff).err = none
    ∧ (finishFetch txr env eff).effects.requestedTx = eff.requestedTx
    ∧ (finishFetch txr env eff).effects.connectCalled = eff.connectCalled
    ∧ (finishFetch txr env eff).effects.allowCommitCalledWith = eff.allowCommitCalledWith
    ∧ ((finishFetch txr env eff).effects.enqueued = [] →
        (finishFetch txr env eff).state.lastTx = txr.lastTx)
    ∧ ((finishFetch txr env eff).effects.enqueued ≠ [] →
        (finishFetch txr env eff).state.lastTx = (txr.lastTx + 1) % U64) := by
  unfold finishFetch
  split <;> simp_all

lemma allowCommitStep_some (txr : TxReplicator) (env : FetchEnv) (eff1 : FetchEffects)
    (e : GoErr) (hac : env.allowCommitErr = some e) :
    allowCommitStep txr env eff1 =
      if errContains e commitDivergedMsg = true then
        ⟨some GoErr.errFollowerDivergedFromMaster, txr, eff1⟩
      else
        ⟨some e, txr, eff1⟩ := by
  unfold allowCommitStep
  rw [hac]

lemma allowCommitStep_ok (txr : TxReplicator) (env : FetchEnv) (eff1 : FetchEffects)
    (h : (allowCommitStep txr env eff1).err = none) :
    allowCommitStep txr env eff1 = finishFetch txr env eff1 := by
  cases hac : env.allowCommitErr with
  | none =>
    unfold allowCommitStep
    rw [hac]
  | some e =>
    rw [allowCommitStep_some txr env eff1 e hac] at h
    split at h <;> simp at h

lemma handleTrailer_adv (txr : TxReplicator) (env : FetchEnv) (eff : FetchEffects)
    (he : eff.enqueued = [])
    (h : (handleTrailer txr env eff).err = none) :
    (handleTrailer txr env eff).effects.requestedTx = eff.requestedTx
    ∧ ((handleTrailer txr env eff).effects.enqueued = [] →
        (handleTrailer txr env eff).state.lastTx = txr.lastTx)
    ∧ ((handleTrailer txr env eff).effects.enqueued ≠ [] →
        (handleTrailer txr env eff).state.lastTx = (txr.lastTx + 1) % U64) := by
  by_cases hkeys : env.trailerTxid = [] ∨ env.trailerAlh = []
  · unfold handleTrailer at h
    rw [if_pos hkeys] at h
    simp at h
  · by_cases hpos : beUint64 (env.trailerTxid.headD []) > 0
    · have hrw : handleTrailer txr env eff = allowCommitStep txr env (trailerEffects env eff) := by
        unfold handleTrailer
        rw [if_neg hkeys, if_pos hpos]
      rw [hrw] at h ⊢
      rw [allowCommitStep_ok txr env _ h]
      have := finishFetch_adv txr env (trailerEffects env eff) (by simp [trailerEffects, he])
      refine ⟨?_, this.2.2.2.2.1, this.2.2.2.2.2⟩
      rw [this.2.1]
      simp [trailerEffects]
    · have hrw : handleTrailer txr env eff = finishFetch txr env eff := by
        unfold handleTrailer
        rw [if_neg hkeys, if_neg hpos]
      rw [hrw] at h ⊢
      have := finishFetch_adv txr env eff he
      exact ⟨this.2.1, this.2.2.2.2.1, this.2.2.2.2.2⟩

lemma afterRead_false (txr : TxReplicator) (env : FetchEnv) (eff : FetchEffects) :
    afterRead txr env false eff = finishFetch txr env eff := rfl

lemma afterRead_true (txr : TxReplicator) (env : FetchEnv) (eff : FetchEffects) :
    afterRead txr env true eff = handleTrailer txr env eff := rfl

lemma afterRead_adv (txr : TxReplicator) (env : FetchEnv) (sync : Bool) (eff : FetchEffects)
    (he : eff.enqueued = [])
    (h : (afterRead txr env sync eff).err = none) :
    (afterRead txr env sync eff).effects.requestedTx = eff.requestedTx
    ∧ ((afterRead txr env sync eff).effects.enqueued = [] →
        (afterRead txr env sync eff).state.lastTx = txr.lastTx)
    ∧ ((afterRead txr env sync eff).effects.enqueued ≠ [] →
        (afterRead txr env sync eff).state.lastTx = (txr.lastTx + 1) % U64) := by
  cases sync
  · rw [afterRead_false] at h ⊢
    have := finishFetch_adv txr env eff he
    exact ⟨this.2.1, this.2.2.2.2.1, this.2.2.2.2.2⟩
  · rw [afterRead_true] at h ⊢
    exact handleTrailer_adv txr env eff he h

lemma txrInit_lastTx (txr : TxReplicator) (env : FetchEnv) :
    (txrInit txr env).lastTx = effLastTx txr env := by
  unfold txrInit effLastTx
  split <;> simp

lemma handleExportError_ok (txr : TxReplicator) (c : Nat) (e : GoErr)
    (d : Option GoErr) (eff : FetchEffects)
    (h : (handleExportError txr c e d eff).err = none) :
    errContains e commitDivergedMsg = false
    ∧ errContains e precommitDivergedMsg = true
    ∧ txr.allowTxDiscarding = true
    ∧ d = none
    ∧ handleExportError txr c e d eff =
        ⟨none, txr, { eff with discardCalledWith := some ((c + 1) % U64) }⟩ := by
  unfold handleExportError at h
  by_cases h1 : errContains e commitDivergedMsg = true
  · rw [if_pos h1] at h
    simp at h
  · rw [if_neg h1] at h
    by_cases h2 : errContains e precommitDivergedMsg = true
    · rw [if_pos h2] at h
      by_cases h3 : txr.allowTxDiscarding = true
      · rw [if_pos h3] at h
        cases hd : d with
        | some e2 =>
          rw [hd] at h
          simp at h
        | none =>
          refine ⟨by simpa using h1, h2, h3, rfl, ?_⟩
          unfold handleExportError
          rw [if_neg h1, if_pos h2, if_pos h3]
      · rw [if_neg h3] at h
        simp at h
    · rw [if_neg h2] at h
      simp at h

lemma fetchWithClient_stateErr (txr : TxReplicator) (env : FetchEnv) (cc : Bool) (e : GoErr)
    (hstate : env.stateErr = some e) :
    fetchWithClient txr env cc = ⟨some e, txr, { connectCalled := cc }⟩ := by
  unfold fetchWithClient
  rw [hstate]

lemma fetchWithClient_readEOF (txr : TxReplicator) (env : FetchEnv) (cc : Bool)
    (hstate : env.stateErr = none) (hexp : env.exportErr = none)
    (hread : env.readErr = some GoErr.errEOF) :
    fetchWithClient txr env cc =
      afterRead (txrInit txr env) env env.syncEnabled
        (requestEffects (txrInit txr env) env cc) := by
  unfold fetchWithClient
  rw [hstate, hexp, hread]
  simp

lemma fetchWithClient_readErr (txr : TxReplicator) (env : FetchEnv) (cc : Bool) (re : GoErr)
    (hstate : env.stateErr = none) (hexp : env.exportErr = none)
    (hread : env.readErr = some re) (hne : re ≠ GoErr.errEOF) :
    fetchWithClient txr env cc =
      ⟨some re, txrInit txr env, requestEffects (txrInit txr env) env cc⟩ := by
  unfold fetchWithClient
  rw [hstate, hexp, hread]
  simp [hne]

lemma fetchWithClient_ok (txr : TxReplicator) (env : FetchEnv) (cc : Bool)
    (h : (fetchWithClient txr env cc).err = none) :
    (fetchWithClient txr env cc).effects.requestedTx = some ((effLastTx txr env + 1) % U64)
    ∧ ((fetchWithClient txr env cc).effects.enqueued = [] →
        (fetchWithClient txr env cc).state.lastTx = effLastTx txr env)
    ∧ ((fetchWithClient txr env cc).effects.enqueued ≠ [] →
        (fetchWithClient txr env cc).state.lastTx = (effLastTx txr env + 1) % U64) := by
  cases hst : env.stateErr with
  | some e =>
    rw [fetchWithClient_stateErr txr env cc e hst] at h
    simp at h
  | none =>
    cases hexp : env.exportErr with
    | some e =>
      rw [fetchWithClient_exportErr txr env e cc hst hexp] at h ⊢
      have hok := handleExportError_ok _ _ _ _ _ h
      rw [hok.2.2.2.2]
      refine ⟨by simp [requestEffects, txrInit_lastTx], fun _ => ?_, fun hne => ?_⟩
      · simp [txrInit_lastTx]
      · simp [requestEffects] at hne
    | none =>
      cases hrd : env.readErr with
      | some re =>
        by_cases heof : re = GoErr.errEOF
        · subst heof
          rw [fetchWithClient_readEOF txr env cc hst hexp hrd] at h ⊢
          have := afterRead_adv (txrInit txr env) env env.syncEnabled
            (requestEffects (txrInit txr env) env cc) (by simp [requestEffects]) h
          rw [← txrInit_lastTx txr env]
          refine ⟨?_, this.2.1, this.2.2⟩
          rw [this.1]
          simp [requestEffects]
        · rw [fetchWithClient_readErr txr env cc re hst hexp hrd heof] at h
          simp at h
      | none =>
        rw [fetchWithClient_okPath txr env cc hst hexp hrd] at h ⊢
        have := afterRead_adv (txrInit txr env) env env.syncEnabled
          (requestEffects (txrInit txr env) env cc) (by simp [requestEffects]) h
        rw [← txrInit_lastTx txr env]
        refine ⟨?_, this.2.1, this.2.2⟩
        rw [this.1]
        simp [requestEffects]

lemma fetchNextTx_notRunning (txr : TxReplicator) (env : FetchEnv)
    (hrun : txr.running = false) :
    fetchNextTx txr env = ⟨some GoErr.errAlreadyStopped, txr, {}⟩ := by
  unfold fetchNextTx
  rw [hrun]
  simp

lemma fetchNextTx_running (txr : TxReplicator) (env : FetchEnv)
    (hrun : txr.running = true) :
    fetchNextTx txr env = fetchConnected txr env := by
  unfold fetchNextTx
  rw [hrun]
  simp

lemma fetchConnected_connectErr (txr : TxReplicator) (env : FetchEnv) (e : GoErr)
    (hcc : txr.clientConnected = false)
    (hcn : (connect txr env.connectEnv).1 = some e) :
    fetchConnected txr env =
      ⟨some e, (connect txr env.connectEnv).2, { connectCalled := true }⟩ := by
  unfold fetchConnected
  rw [hcc]
  simp [hcn]

lemma fetchConnected_connectOk (txr : TxReplicator) (env : FetchEnv)
    (hcc : txr.clientConnected = false)
    (hcn : (connect txr env.connectEnv).1 = none) :
    fetchConnected txr env = fetchWithClient (connect txr env.connectEnv).2 env true := by
  unfold fetchConnected
  rw [hcc]
  simp [hcn]

lemma fetch_ok (txr : TxReplicator) (env : FetchEnv)
    (h : (fetchNextTx txr env).err = none) :
    (fetchNextTx txr env).effects.requestedTx = some ((effLastTx txr env + 1) % U64)
    ∧ ((fetchNextTx txr env).effects.enqueued = [] →
        (fetchNextTx txr env).state.lastTx = effLastTx txr env)
    ∧ ((fetchNextTx txr env).effects.enqueued ≠ [] →
        (fetchNextTx txr env).state.lastTx = (effLastTx txr env + 1) % U64) := by
  cases hrun : txr.running with
  | false =>
    rw [fetchNextTx_notRunning txr env hrun] at h
    simp at h
  | true =>
    rw [fetchNextTx_running txr env hrun] at h ⊢
    cases hcc : txr.clientConnected with
    | true =>
      have h2 : fetchConnected txr env = fetchWithClient txr env false := by
        unfold fetchConnected
        rw [hcc]
        simp
      rw [h2] at h ⊢
      exact fetchWithClient_ok txr env false h
    | false =>
      cases hcn : (connect txr env.connectEnv).1 with
      | some e =>
        rw [fetchConnected_connectErr txr env e hcc hcn] at h
        simp at h
      | none =>
        rw [fetchConnected_connectOk txr env hcc hcn] at h ⊢
        have hfw := fetchWithClient_ok (connect txr env.connectEnv).2 env true h
        have hlast : (connect txr env.connectEnv).2.lastTx = txr.lastTx :=
          (connect_frame txr env.connectEnv).1
        have heff : effLastTx (connect txr env.connectEnv).2 env = effLastTx txr env := by
          unfold effLastTx
          rw [hlast]
        rw [heff] at hfw
        exact hfw

lemma runFetches_cons (txr : TxReplicator) (env : FetchEnv) (rest : List FetchEnv) :
    (runFetches txr (env :: rest)).2 =
      fetchNextTx txr env :: (runFetches (fetchNextTx txr env).state rest).2
    ∧ (runFetches txr (env :: rest)).1 = (runFetches (fetchNextTx txr env).state rest).1 := by
  constructor <;> simp [runFetches]

lemma runFetches_consecutive (envs : List FetchEnv) :
    ∀ (txr : TxReplicator) (t : Nat), txr.lastTx = t → t ≠ 0 → t + envs.length < U64 →
    (∀ r ∈ (runFetches txr envs).2, r.err = none) →
    (∀ r ∈ (runFetches txr envs).2, r.effects.enqueued ≠ []) →
    ((runFetches txr envs).2.map fun r => r.effects.requestedTx)
        = (List.range' (t + 1) envs.length).map some
    ∧ (runFetches txr envs).1.lastTx = t + envs.length := by
  induction envs with
  | nil =>
    intro txr t ht _ _ _ _
    refine ⟨by simp [runFetches], by simp [runFetches, ht]⟩
  | cons env rest ih =>
    intro txr t ht htnz hov herr hne
    obtain ⟨hr, hf1⟩ := runFetches_cons txr env rest
    have herr0 : (fetchNextTx txr env).err = none := by
      refine herr _ ?_
      rw [hr]
      exact List.mem_cons_self _ _
    have hne0 : (fetchNextTx txr env).effects.enqueued ≠ [] := by
      refine hne _ ?_
      rw [hr]
      exact List.mem_cons_self _ _
    have hok := fetch_ok txr env herr0
    have heff : effLastTx txr env = t := by
      unfold effLastTx
      rw [ht]
      simp [htnz]
    have hlenc : (env :: rest).length = rest.length + 1 := by simp
    have hlt : t + 1 < U64 := by
      rw [hlenc] at hov
      omega
    have hmod : (t + 1) % U64 = t + 1 := Nat.mod_eq_of_lt hlt
    have hstate : (fetchNextTx txr env).state.lastTx = t + 1 := by
      rw [hok.2.2 hne0, heff, hmod]
    have ihr := ih (fetchNextTx txr env).state (t + 1) hstate (by omega)
      (by rw [hlenc] at hov; omega)
      (fun r hm => herr r (by rw [hr]; exact List.mem_cons_of_mem _ hm))
      (fun r hm => hne r (by rw [hr]; exact List.mem_cons_of_mem _ hm))
    constructor
    · rw [hr]
      simp only [List.map_cons, hlenc]
      rw [hok.1, heff, hmod, ihr.1, List.range'_succ]
      simp
    · rw [hf1, ihr.2, hlenc]
      omega

lemma txrInit_frame (txr : TxReplicator) (env : FetchEnv) :
    (txrInit txr env).allowTxDiscarding = txr.allowTxDiscarding
    ∧ (txrInit txr env).running = txr.running
    ∧ (txrInit txr env).clientConnected = txr.clientConnected := by
  unfold txrInit
  split <;> simp

lemma finishFetch_effectsFrame (txr : TxReplicator) (env : FetchEnv) (eff : FetchEffects) :
    (finishFetch txr env eff).effects.allowCommitCalledWith = eff.allowCommitCalledWith
    ∧ (finishFetch txr env eff).effects.discardCalledWith = eff.discardCalledWith
    ∧ (finishFetch txr env eff).effects.connectCalled = eff.connectCalled
    ∧ (finishFetch txr env eff).effects.requestedTx = eff.requestedTx := by
  unfold finishFetch
  split <;> simp

lemma allowCommitStep_effectsFrame (txr : TxReplicator) (env : FetchEnv) (eff1 : FetchEffects) :
    (allowCommitStep txr env eff1).effects.allowCommitCalledWith = eff1.allowCommitCalledWith
    ∧ (allowCommitStep txr env eff1).effects.connectCalled = eff1.connectCalled := by
  cases hac : env.allowCommitErr with
  | none =>
    have hrw : allowCommitStep txr env eff1 = finishFetch txr env eff1 := by
      unfold allowCommitStep
      rw [hac]
    rw [hrw]
    exact ⟨(finishFetch_effectsFrame txr env eff1).1,
           (finishFetch_effectsFrame txr env eff1).2.2.1⟩
  | some e =>
    rw [allowCommitStep_some txr env eff1 e hac]
    split <;> simp

lemma handleExportError_connectCalled (txr : TxReplicator) (c : Nat) (e : GoErr)
    (d : Option GoErr) (eff : FetchEffects) :
    (handleExportError txr c e d eff).effects.connectCalled = eff.connectCalled := by
  unfold handleExportError
  by_cases h1 : errContains e commitDivergedMsg = true
  · rw [if_pos h1]
  · rw [if_neg h1]
    by_cases h2 : errContains e precommitDivergedMsg = true
    · rw [if_pos h2]
      by_cases h3 : txr.allowTxDiscarding = true
      · rw [if_pos h3]
        cases d <;> rfl
      · rw [if_neg h3]
    · rw [if_neg h2]

lemma handleTrailer_connectCalled (txr : TxReplicator) (env : FetchEnv) (eff : FetchEffects) :
    (handleTrailer txr env eff).effects.connectCalled = eff.connectCalled := by
  unfold handleTrailer
  by_cases hkeys : env.trailerTxid = [] ∨ env.trailerAlh = []
  · rw [if_pos hkeys]
  · rw [if_neg hkeys]
    by_cases hpos : beUint64 (env.trailerTxid.headD []) > 0
    · rw [if_pos hpos]
      rw [(allowCommitStep_effectsFrame txr env (trailerEffects env eff)).2]
      simp [trailerEffects]
    · rw [if_neg hpos]
      exact (finishFetch_effectsFrame txr env eff).2.2.1

lemma afterRead_connectCalled (txr : TxReplicator) (env : FetchEnv) (sync : Bool)
    (eff : FetchEffects) :
    (afterRead txr env sync eff).effects.connectCalled = eff.connectCalled := by
  cases sync
  · rw [afterRead_false]
    exact (finishFetch_effectsFrame txr env eff).2.2.1
  · rw [afterRead_true]
    exact handleTrailer_connectCalled txr env eff

lemma fetchWithClient_connectCalled (txr : TxReplicator) (env : FetchEnv) (cc : Bool) :
    (fetchWithClient txr env cc).effects.connectCalled = cc := by
  cases hst : env.stateErr with
  | some e => rw [fetchWithClient_stateErr txr env cc e hst]
  | none =>
    cases hexp : env.exportErr with
    | some e =>
      rw [fetchWithClient_exportErr txr env e cc hst hexp]
      rw [handleExportError_connectCalled]
      simp [requestEffects]
    | none =>
      cases hrd : env.readErr with
      | some re =>
        by_cases heof : re = GoErr.errEOF
        · subst heof
          rw [fetchWithClient_readEOF txr env cc hst hexp hrd, afterRead_connectCalled]
          simp [requestEffects]
        · rw [fetchWithClient_readErr txr env cc re hst hexp hrd heof]
          simp [requestEffects]
      | none =>
        rw [fetchWithClient_okPath txr env cc hst hexp hrd, afterRead_connectCalled]
        simp [requestEffects]

lemma applyLoopAux_transient (pre : List ApplyAttempt) :
    ∀ (n : Nat) (rest : List ApplyAttempt), pre.all isTransientAttempt = true →
    applyPayloadLoopAux n (pre ++ rest) = applyPayloadLoopAux (n + pre.length) rest := by
  induction pre with
  | nil =>
    intro n rest _
    simp
  | cons a t ih =>
    intro n rest hall
    rw [List.all_cons, Bool.and_eq_true] at hall
    obtain ⟨ha, ht⟩ := hall
    rw [List.cons_append]
    unfold isTransientAttempt at ha
    cases hre : a.replicateErr with
    | none =>
      rw [hre] at ha
      simp at ha
    | some e =>
      rw [hre] at ha
      have ha2 : (if e = GoErr.errAlreadyStopped then false
          else if errContains e alreadyCommittedMsg = true then false
          else if a.cancelledDuringBackoff = true then false else true) = true := ha
      by_cases h1 : e = GoErr.errAlreadyStopped
      · rw [if_pos h1] at ha2
        simp at ha2
      · rw [if_neg h1] at ha2
        by_cases h2 : errContains e alreadyCommittedMsg = true
        · rw [if_pos h2] at ha2
          simp at ha2
        · rw [if_neg h2] at ha2
          by_cases h3 : a.cancelledDuringBackoff = true
          · rw [if_pos h3] at ha2
            simp at ha2
          · have hstep : applyPayloadLoopAux n (a :: (t ++ rest))
                = applyPayloadLoopAux (n + 1) (t ++ rest) := by
              conv_lhs => unfold applyPayloadLoopAux
              rw [hre]
              simp only [if_neg h1, if_neg h2, if_neg h3]
            rw [hstep, ih (n + 1) rest ht]
            congr 1
            simp
            omega

/-! ### Claim theorems -/

/-- Claim C1, counterexample: with tx discarding allowed, a precommitted-state
divergence from ExportTx followed by a successful discard makes fetchNextTx
return nil — not the original divergence error as a retryable non-nil error,
as the claim states — because the Go code reassigns err with the discard
result before the final return.  DiscardPrecommittedTxsSince is still invoked
with committedTxId + 1 (here 2 + 1 = 3). -/
theorem C1_counterexample :
    c1txr.allowTxDiscarding = true
    ∧ c1env.exportErr = some (GoErr.errOther precommitDivergedMsg)
    ∧ (fetchNextTx c1txr c1env).effects.discardCalledWith = some 3
    ∧ (fetchNextTx c1txr c1env).err = none := by
  refine ⟨rfl, rfl, by decide, by decide⟩

/-- Claim C1, amended: when ExportTx fails with a precommitted-state
divergence and allowTxDiscarding is enabled, fetchNextTx calls
DiscardPrecommittedTxsSince(committedTxId + 1) and then returns exactly the
discard call's own result: the discard error when the discard fails, and nil
(not the original divergence error) when the discard succeeds. -/
theorem C1_precommitDivergence_discard (txr : TxReplicator) (env : FetchEnv) (e : GoErr)
    (hrun : txr.running = true) (hconn : txr.clientConnected = true)
    (hstate : env.stateErr = none) (hexp : env.exportErr = some e)
    (hdisc : txr.allowTxDiscarding = true)
    (hpre : errContains e precommitDivergedMsg = true)
    (hcom : errContains e commitDivergedMsg = false) :
    (fetchNextTx txr env).effects.discardCalledWith = some ((env.commitState.txId + 1) % U64)
    ∧ (fetchNextTx txr env).err = env.discardErr := by
  have h2 : fetchConnected txr env = fetchWithClient txr env false := by
    unfold fetchConnected
    rw [hconn]
    simp
  have hd : (txrInit txr env).allowTxDiscarding = true := by
    rw [(txrInit_frame txr env).1, hdisc]
  rw [fetchNextTx_running txr env hrun, h2, fetchWithClient_exportErr txr env e false hstate hexp,
      handleExportError_precommit _ _ _ _ _ hcom hpre hd]
  constructor <;> simp

/-- Claim C1, witness: concrete instantiation of the amended theorem where the
discard itself fails, so its error is propagated. -/
theorem C1_witness :
    c1wtxr.running = true ∧ c1wtxr.clientConnected = true
    ∧ c1wtxr.allowTxDiscarding = true ∧ c1wenv.stateErr = none
    ∧ c1wenv.exportErr = some (GoErr.errOther precommitDivergedMsg)
    ∧ ((fetchNextTx c1wtxr c1wenv).effects.discardCalledWith
          = some ((c1wenv.commitState.txId + 1) % U64)
        ∧ (fetchNextTx c1wtxr c1wenv).err = c1wenv.discardErr) := by
  refine ⟨rfl, rfl, rfl, rfl, rfl, ?_⟩
  exact C1_precommitDivergence_discard c1wtxr c1wenv (GoErr.errOther precommitDivergedMsg)
    rfl rfl rfl rfl rfl (by decide) (by decide)

/-- Claim C2, counterexample: a two-iteration error-free trace whose first
iteration returns an empty payload re-requests the same tx id, so the sequence
of requested ids is 5, 5 — it has a repeat and is not the sequence
k, k+1, ... with k = initialPrecommittedTxId + 1 = 5 that the claim demands
for every error-free trace. -/
theorem C2_counterexample :
    c2txr.lastTx = 0
    ∧ c2envE.commitState.precommittedTxId = 4
    ∧ (∀ r ∈ (runFetches c2txr [c2envE, c2envN]).2, r.err = none)
    ∧ ((runFetches c2txr [c2envE, c2envN]).2.map fun r => r.effects.requestedTx)
        = [some 5, some 5]
    ∧ ((runFetches c2txr [c2envE, c2envN]).2.map fun r => r.effects.requestedTx)
        ≠ (List.range' (4 + 1) 2).map some := by
  refine ⟨rfl, rfl, by decide, by decide, by decide⟩

/-- Claim C2, amended: over any error-free trace in which every iteration
enqueues a non-empty payload, the requested tx ids form the gap-free,
repeat-free sequence k, k+1, ... with k = initialPrecommittedTxId + 1 (lastTx
being initialised from the store's precommitted tx id when it is zero), and in
general an error-free iteration advances lastTx by exactly one when its
exported payload is non-empty and leaves lastTx unchanged (after the
zero-initialisation) when the payload is empty — so an empty iteration makes
the next request repeat the same id. -/
theorem C2_fetch_sequence (s0 : TxReplicator) (e0 : FetchEnv) (rest : List FetchEnv) (p : Nat)
    (h0 : s0.lastTx = 0)
    (hp : e0.commitState.precommittedTxId = p)
    (hov : p + (rest.length + 1) < U64)
    (herr : ∀ r ∈ (runFetches s0 (e0 :: rest)).2, r.err = none)
    (hne : ∀ r ∈ (runFetches s0 (e0 :: rest)).2, r.effects.enqueued ≠ []) :
    ((runFetches s0 (e0 :: rest)).2.map fun r => r.effects.requestedTx)
        = (List.range' (p + 1) (rest.length + 1)).map some
    ∧ (runFetches s0 (e0 :: rest)).1.lastTx = p + (rest.length + 1)
    ∧ (∀ (txr : TxReplicator) (env : FetchEnv), (fetchNextTx txr env).err = none →
        ((fetchNextTx txr env).effects.enqueued ≠ [] →
            (fetchNextTx txr env).state.lastTx = (effLastTx txr env + 1) % U64)
        ∧ ((fetchNextTx txr env).effects.enqueued = [] →
            (fetchNextTx txr env).state.lastTx = effLastTx txr env)) := by
  obtain ⟨hr, hf1⟩ := runFetches_cons s0 e0 rest
  have herr0 : (fetchNextTx s0 e0).err = none := by
    refine herr _ ?_
    rw [hr]
    exact List.mem_cons_self _ _
  have hne0 : (fetchNextTx s0 e0).effects.enqueued ≠ [] := by
    refine hne _ ?_
    rw [hr]
    exact List.mem_cons_self _ _
  have hok := fetch_ok s0 e0 herr0
  have heff : effLastTx s0 e0 = p := by
    unfold effLastTx
    rw [h0, hp]
    simp
  have hlt : p + 1 < U64 := by omega
  have hmod : (p + 1) % U64 = p + 1 := Nat.mod_eq_of_lt hlt
  have hstate : (fetchNextTx s0 e0).state.lastTx = p + 1 := by
    rw [hok.2.2 hne0, heff, hmod]
  have ihr := runFetches_consecutive rest (fetchNextTx s0 e0).state (p + 1) hstate
    (by omega) (by omega)
    (fun r hm => herr r (by rw [hr]; exact List.mem_cons_of_mem _ hm))
    (fun r hm => hne r (by rw [hr]; exact List.mem_cons_of_mem _ hm))
  refine ⟨?_, ?_, ?_⟩
  · rw [hr]
    simp only [List.map_cons]
    rw [hok.1, heff, hmod, ihr.1, List.range'_succ]
    simp
  · rw [hf1, ihr.2]
    omega
  · intro txr env hnone
    exact ⟨(fetch_ok txr env hnone).2.2, (fetch_ok txr env hnone).2.1⟩

/-- Claim C2, witness: a concrete two-iteration error-free trace with
non-empty payloads and initial precommitted tx id 4: the requested ids are
exactly 5, 6 and lastTx ends at 6. -/
theorem C2_witness :
    w2txr.lastTx = 0
    ∧ w2env1.commitState.precommittedTxId = 4
    ∧ (∀ r ∈ (runFetches w2txr [w2env1, w2env2]).2, r.err = none)
    ∧ (∀ r ∈ (runFetches w2txr [w2env1, w2env2]).2, r.effects.enqueued ≠ [])
    ∧ ((runFetches w2txr [w2env1, w2env2]).2.map fun r => r.effects.requestedTx)
        = (List.range' (4 + 1) ([w2env2].length + 1)).map some
    ∧ (runFetches w2txr [w2env1, w2env2]).1.lastTx = 4 + ([w2env2].length + 1) := by
  refine ⟨rfl, rfl, by decide, by decide, ?_, ?_⟩
  · exact (C2_fetch_sequence w2txr w2env1 [w2env2] 4 rfl rfl (by decide)
      (by decide) (by decide)).1
  · exact (C2_fetch_sequence w2txr w2env1 [w2env2] 4 rfl rfl (by decide)
      (by decide) (by decide)).2.1

/-- Claim C3, counterexample: not every blocking wait of the replicator is
selectable against the cancellation token — the Fetcher's handoff-queue send
is a plain channel send and the appliers' dequeue is a plain range over the
channel, so cancelling the token unblocks neither. -/
theorem C3_counterexample :
    selectableOnCancellationToken BlockingWait.fetcherQueueSend = false
    ∧ selectableOnCancellationToken BlockingWait.applierQueueReceive = false
    ∧ ¬ (∀ w : BlockingWait, selectableOnCancellationToken w = true) :=
  ⟨rfl, rfl, fun h => absurd (h BlockingWait.fetcherQueueSend) (by decide)⟩

/-- Claim C3, amended: every blocking wait of the replicator except the
Fetcher's handoff-queue send, the appliers' queue receive (which is unblocked
by closing the queue in Stop, not by the token) and the initial client dial is
selectable against the replicator's cancellation token. -/
theorem C3_selectable_waits (w : BlockingWait)
    (h1 : w ≠ BlockingWait.fetcherQueueSend)
    (h2 : w ≠ BlockingWait.applierQueueReceive)
    (h3 : w ≠ BlockingWait.clientDial) :
    selectableOnCancellationToken w = true := by
  cases w <;> simp_all [selectableOnCancellationToken]

/-- Claim C3, witness: the ExportTx RPC is one of the waits that is selectable
against the token. -/
theorem C3_witness :
    (BlockingWait.rpcExportTx ≠ BlockingWait.fetcherQueueSend
      ∧ BlockingWait.rpcExportTx ≠ BlockingWait.applierQueueReceive
      ∧ BlockingWait.rpcExportTx ≠ BlockingWait.clientDial)
    ∧ selectableOnCancellationToken BlockingWait.rpcExportTx = true :=
  ⟨⟨by decide, by decide, by decide⟩,
    C3_selectable_waits BlockingWait.rpcExportTx (by decide) (by decide) (by decide)⟩

/-- Claim C4: in sync mode with both trailer keys present, AllowCommitUpto is
invoked exactly when the big-endian-decoded tx id is positive, its arguments
are that tx id and the 32-byte ALH taken verbatim from the trailer, and a
committed-state divergence returned by the call is reclassified as the fatal
divergence error. -/
theorem C4_sync_allowCommitUpto (txr : TxReplicator) (env : FetchEnv)
    (txidBytes alhBytes : List Nat) (restT restA : List (List Nat))
    (hrun : txr.running = true) (hconn : txr.clientConnected = true)
    (hstate : env.stateErr = none) (hexp : env.exportErr = none) (hread : env.readErr = none)
    (hsync : env.syncEnabled = true)
    (ht : env.trailerTxid = txidBytes :: restT) (ha : env.trailerAlh = alhBytes :: restA)
    (hlen8 : txidBytes.length = 8) (hlen : alhBytes.length = 32) :
    ((fetchNextTx txr env).effects.allowCommitCalledWith
        = if beUint64 txidBytes > 0 then some (beUint64 txidBytes, alhBytes) else none)
    ∧ (∀ ce : GoErr, beUint64 txidBytes > 0 → env.allowCommitErr = some ce →
        errContains ce commitDivergedMsg = true →
        (fetchNextTx txr env).err = some GoErr.errFollowerDivergedFromMaster) := by
  have h2 : fetchConnected txr env = fetchWithClient txr env false := by
    unfold fetchConnected
    rw [hconn]
    simp
  have hfe : fetchNextTx txr env =
      handleTrailer (txrInit txr env) env (requestEffects (txrInit txr env) env false) := by
    rw [fetchNextTx_running txr env hrun, h2, fetchWithClient_okPath txr env false hstate hexp hread,
        hsync, afterRead_true]
  have hkeys : ¬(env.trailerTxid = [] ∨ env.trailerAlh = []) := by
    rw [ht, ha]
    simp
  have hheadT : env.trailerTxid.headD [] = txidBytes := by rw [ht]; rfl
  have hheadA : env.trailerAlh.headD [] = alhBytes := by rw [ha]; rfl
  have hcopy : copy32 alhBytes = alhBytes := by
    unfold copy32
    rw [← hlen, List.take_length, Nat.sub_self, List.replicate_zero, List.append_nil]
  have htr : handleTrailer (txrInit txr env) env (requestEffects (txrInit txr env) env false)
      = (if beUint64 txidBytes > 0 then
          allowCommitStep (txrInit txr env) env
            (trailerEffects env (requestEffects (txrInit txr env) env false))
        else
          finishFetch (txrInit txr env) env (requestEffects (txrInit txr env) env false)) := by
    unfold handleTrailer
    rw [if_neg hkeys, hheadT]
  constructor
  · rw [hfe, htr]
    by_cases hpos : beUint64 txidBytes > 0
    · rw [if_pos hpos, if_pos hpos]
      rw [(allowCommitStep_effectsFrame _ _ _).1]
      simp [trailerEffects, ht, ha, hcopy]
    · rw [if_neg hpos, if_neg hpos]
      rw [(finishFetch_effectsFrame _ _ _).1]
      simp [requestEffects]
  · intro ce hpos hac hdiv
    rw [hfe, htr, if_pos hpos,
        allowCommitStep_some _ _ _ ce hac, if_pos hdiv]

/-- Claim C4, witness: a concrete sync-mode iteration whose trailer decodes to
tx id 5 and a 32-byte ALH, and whose AllowCommitUpto call reports a committed
state divergence: the call is made with (5, alh) and fetchNextTx returns the
fatal divergence error. -/
theorem C4_witness :
    beUint64 w4txid = 5 ∧ w4alh.length = 32 ∧ w4env.syncEnabled = true
    ∧ ((fetchNextTx w4txr w4env).effects.allowCommitCalledWith
          = if beUint64 w4txid > 0 then some (beUint64 w4txid, w4alh) else none)
    ∧ (fetchNextTx w4txr w4env).err = some GoErr.errFollowerDivergedFromMaster := by
  refine ⟨by decide, by decide, rfl, ?_, ?_⟩
  · exact (C4_sync_allowCommitUpto w4txr w4env w4txid w4alh [] [] rfl rfl rfl rfl rfl rfl
      rfl rfl (by decide) (by decide)).1
  · exact (C4_sync_allowCommitUpto w4txr w4env w4txid w4alh [] [] rfl rfl rfl rfl rfl rfl
      rfl rfl (by decide) (by decide)).2 (GoErr.errOther commitDivergedMsg)
      (by decide) rfl (by decide)

/-- Claim C5: an ExportTx failure carrying the committed-state divergence
message makes fetchNextTx return the fatal divergence error, and the
supervisor loop reacts to that error by invoking Stop and exiting, so no
further fetch iteration is attempted. -/
theorem C5_committedDivergence_stops (txr : TxReplicator) (env : FetchEnv) (e : GoErr)
    (henv : HandleEnv)
    (hrun : txr.running = true) (hconn : txr.clientConnected = true)
    (hstate : env.stateErr = none) (hexp : env.exportErr = some e)
    (hdiv : errContains e commitDivergedMsg = true) :
    (fetchNextTx txr env).err = some GoErr.errFollowerDivergedFromMaster
    ∧ (supervisorLoopStep (fetchNextTx txr env).state (fetchNextTx txr env).err henv).2.1 = true
    ∧ (supervisorLoopStep (fetchNextTx txr env).state (fetchNextTx txr env).err henv).2.2
        = true := by
  have h2 : fetchConnected txr env = fetchWithClient txr env false := by
    unfold fetchConnected
    rw [hconn]
    simp
  have herr : (fetchNextTx txr env).err = some GoErr.errFollowerDivergedFromMaster := by
    rw [fetchNextTx_running txr env hrun, h2, fetchWithClient_exportErr txr env e false hstate hexp,
        handleExportError_commit _ _ _ _ _ hdiv]
  refine ⟨herr, ?_, ?_⟩ <;> rw [herr] <;> simp [supervisorLoopStep, superviseFetchResult]

/-- Claim C5, witness: concrete iteration whose ExportTx call fails with the
committed-state divergence message. -/
theorem C5_witness :
    c5env.exportErr = some (GoErr.errOther commitDivergedMsg)
    ∧ ((fetchNextTx c5txr c5env).err = some GoErr.errFollowerDivergedFromMaster
        ∧ (supervisorLoopStep (fetchNextTx c5txr c5env).state (fetchNextTx c5txr c5env).err
            c5henv).2.1 = true
        ∧ (supervisorLoopStep (fetchNextTx c5txr c5env).state (fetchNextTx c5txr c5env).err
            c5henv).2.2 = true) := by
  refine ⟨rfl, ?_⟩
  exact C5_committedDivergence_stops c5txr c5env (GoErr.errOther commitDivergedMsg) c5henv
    rfl rfl rfl rfl (by decide)

/-- Claim C6: handleError(nil) resets the consecutive-failure counter to 0 and
returns continue; handleError(e) with non-nil e increments the counter, returns
terminate when the selectable wait is cancelled (without disconnecting), and
otherwise returns continue, having invoked disconnect exactly when the
incremented counter reached three or more. -/
theorem C6_handleError_contract (txr : TxReplicator) (e : GoErr) (env : HandleEnv) :
    handleError txr none env = (false, { txr with consecutiveFailures := 0 }, false)
    ∧ (handleError txr (some e) env).2.1.consecutiveFailures = txr.consecutiveFailures + 1
    ∧ (env.cancelledDuringWait = true →
        handleError txr (some e) env
          = (true, { txr with consecutiveFailures := txr.consecutiveFailures + 1 }, false))
    ∧ (env.cancelledDuringWait = false →
        (handleError txr (some e) env).1 = false
        ∧ ((handleError txr (some e) env).2.2 = true ↔ 3 ≤ txr.consecutiveFailures + 1)) := by
  refine ⟨rfl, ?_, ?_, ?_⟩
  · unfold handleError
    cases hc : env.cancelledDuringWait
    · simp only [hc, Bool.false_eq_true, if_false]
      split
      · unfold disconnect
        split <;> rfl
      · rfl
    · simp only [hc, if_true]
  · intro hc
    unfold handleError
    rw [hc]
    simp
  · intro hc
    unfold handleError
    rw [hc]
    simp only [Bool.false_eq_true, if_false]
    constructor
    · split <;> rfl
    · split
      next h3 => simpa using h3
      next h3 => simpa using h3

/-- Claim C6, witness: at two prior consecutive failures and an uncancelled
wait, a non-nil error increments the counter to three, returns continue, and
triggers disconnect; a nil error resets the counter. -/
theorem C6_witness :
    c6env.cancelledDuringWait = false
    ∧ handleError c6txr none c6env = (false, { c6txr with consecutiveFailures := 0 }, false)
    ∧ (handleError c6txr (some c6err) c6env).2.1.consecutiveFailures
        = c6txr.consecutiveFailures + 1
    ∧ ((handleError c6txr (some c6err) c6env).1 = false
        ∧ ((handleError c6txr (some c6err) c6env).2.2 = true
            ↔ 3 ≤ c6txr.consecutiveFailures + 1)) := by
  refine ⟨rfl, ?_, ?_, ?_⟩
  · exact (C6_handleError_contract c6txr c6err c6env).1
  · exact (C6_handleError_contract c6txr c6err c6env).2.1
  · exact (C6_handleError_contract c6txr c6err c6env).2.2.2 rfl

/-- Claim C7: in sync mode, an ExportTx response whose trailer lacks either of
the two sync keys makes fetchNextTx return the retryable master-not-sync error
(a dynamically built error, not a sentinel), which the supervisor loop routes
to handleError's backoff path — not to the fatal-divergence stop and not to
the goroutine exit. -/
theorem C7_missingTrailer_retryable (txr : TxReplicator) (env : FetchEnv)
    (hrun : txr.running = true) (hconn : txr.clientConnected = true)
    (hstate : env.stateErr = none) (hexp : env.exportErr = none) (hread : env.readErr = none)
    (hsync : env.syncEnabled = true)
    (hmiss : env.trailerTxid = [] ∨ env.trailerAlh = []) :
    (fetchNextTx txr env).err = some (GoErr.errOther masterNotSyncMsg)
    ∧ superviseFetchResult (fetchNextTx txr env).err = LoopAction.handleAndContinue := by
  have h2 : fetchConnected txr env = fetchWithClient txr env false := by
    unfold fetchConnected
    rw [hconn]
    simp
  have herr : (fetchNextTx txr env).err = some (GoErr.errOther masterNotSyncMsg) := by
    rw [fetchNextTx_running txr env hrun, h2,
        fetchWithClient_okPath txr env false hstate hexp hread, hsync, afterRead_true]
    unfold handleTrailer
    rw [if_pos hmiss]
  refine ⟨herr, ?_⟩
  rw [herr]
  simp [superviseFetchResult]

/-- Claim C7, witness: a concrete sync-mode iteration whose trailer carries no
value under the txid key. -/
theorem C7_witness :
    c7env.syncEnabled = true ∧ c7env.trailerTxid = []
    ∧ ((fetchNextTx c7txr c7env).err = some (GoErr.errOther masterNotSyncMsg)
        ∧ superviseFetchResult (fetchNextTx c7txr c7env).err
            = LoopAction.handleAndContinue) := by
  refine ⟨rfl, rfl, ?_⟩
  exact C7_missingTrailer_retryable c7txr c7env rfl rfl rfl rfl rfl rfl (Or.inl rfl)

/-- Claim C8: for one dequeued payload, the applier worker's retry loop runs
through any number of transient failures and then: finishes the payload on a
successful ReplicateTx, finishes it on a "tx already committed" error
(idempotent success), exits the worker on the stopped sentinel or on
cancellation during backoff — and throughout, the replicator state (in
particular the supervisor's consecutiveFailures counter) is untouched, the
retry counter being local to the loop. -/
theorem C8_applier_retry (txr : TxReplicator) (pre : List ApplyAttempt) (a : ApplyAttempt)
    (rest : List ApplyAttempt) (hpre : pre.all isTransientAttempt = true) :
    (a.replicateErr = none →
        (applierProcessPayload txr (pre ++ a :: rest)).1 = ApplierOutcome.applied)
    ∧ (∀ e, a.replicateErr = some e → e ≠ GoErr.errAlreadyStopped →
        errContains e alreadyCommittedMsg = true →
        (applierProcessPayload txr (pre ++ a :: rest)).1 = ApplierOutcome.applied)
    ∧ (a.replicateErr = some GoErr.errAlreadyStopped →
        (applierProcessPayload txr (pre ++ a :: rest)).1 = ApplierOutcome.workerExit)
    ∧ (∀ e, a.replicateErr = some e → e ≠ GoErr.errAlreadyStopped →
        errContains e alreadyCommittedMsg = false → a.cancelledDuringBackoff = true →
        (applierProcessPayload txr (pre ++ a :: rest)).1 = ApplierOutcome.workerExit)
    ∧ (applierProcessPayload txr (pre ++ a :: rest)).2.2 = txr := by
  have hskip : applyPayloadLoopAux 0 (pre ++ a :: rest)
      = applyPayloadLoopAux pre.length (a :: rest) := by
    rw [applyLoopAux_transient pre 0 (a :: rest) hpre]
    simp
  have hout : (applierProcessPayload txr (pre ++ a :: rest)).1
      = (applyPayloadLoopAux pre.length (a :: rest)).1 := by
    unfold applierProcessPayload
    rw [hskip]
  refine ⟨?_, ?_, ?_, ?_, rfl⟩
  · intro hnone
    rw [hout]
    conv_lhs => unfold applyPayloadLoopAux
    rw [hnone]
  · intro e he hstop hmsg
    rw [hout]
    conv_lhs => unfold applyPayloadLoopAux
    rw [he]
    simp [if_neg hstop, hmsg]
  · intro hstop
    rw [hout]
    conv_lhs => unfold applyPayloadLoopAux
    rw [hstop]
    simp
  · intro e he hstop hmsg hcancel
    rw [hout]
    conv_lhs => unfold applyPayloadLoopAux
    rw [he]
    simp [if_neg hstop, hmsg, hcancel]

/-- Claim C8, witness: one transient failure followed by a successful
ReplicateTx finishes the payload, with the replicator state untouched. -/
theorem C8_witness :
    c8pre.all isTransientAttempt = true
    ∧ c8ok.replicateErr = none
    ∧ (applierProcessPayload c8txr (c8pre ++ c8ok :: [])).1 = ApplierOutcome.applied
    ∧ (applierProcessPayload c8txr (c8pre ++ c8ok :: [])).2.2 = c8txr := by
  refine ⟨by decide, rfl, ?_, ?_⟩
  · exact (C8_applier_retry c8txr c8pre c8ok [] (by decide)).1 rfl
  · exact (C8_applier_retry c8txr c8pre c8ok [] (by decide)).2.2.2.2

/-- Claim C9: Stop on a replicator that was never started (nil cancellation
function, guarded) or that was already stopped (its token already cancelled)
returns AlreadyStopped before closing the handoff queue or calling disconnect,
leaves the replicator state unchanged, and a subsequent Start succeeds. -/
theorem C9_stop_idempotent (txr : TxReplicator)
    (h : txr.running = false)
    (hc : txr.cancelFuncSet = true → txr.tokenCancelled = true) :
    (Stop txr).1 = some GoErr.errAlreadyStopped
    ∧ (Stop txr).2.1 = txr
    ∧ (Stop txr).2.2.queueClosedNow = false
    ∧ (Stop txr).2.2.disconnectInvoked = false
    ∧ (Start (Stop txr).2.1).1 = none := by
  have hst : (if txr.cancelFuncSet then { txr with tokenCancelled := true } else txr) = txr := by
    by_cases hcf : txr.cancelFuncSet = true
    · rw [if_pos hcf]
      have hto := hc hcf
      cases txr
      simp_all
    · rw [if_neg hcf]
  have hstop : Stop txr
      = (some GoErr.errAlreadyStopped, txr, { cancelInvoked := txr.cancelFuncSet }) := by
    unfold Stop
    rw [hst]
    simp [h]
  rw [hstop]
  refine ⟨rfl, rfl, rfl, rfl, ?_⟩
  unfold Start
  rw [h]
  simp

/-- Claim C9, witness: Stop on a freshly constructed, never-started
replicator. -/
theorem C9_witness :
    c9txr.running = false ∧ c9txr.cancelFuncSet = false
    ∧ ((Stop c9txr).1 = some GoErr.errAlreadyStopped
        ∧ (Stop c9txr).2.1 = c9txr
        ∧ (Stop c9txr).2.2.queueClosedNow = false
        ∧ (Stop c9txr).2.2.disconnectInvoked = false
        ∧ (Start (Stop c9txr).2.1).1 = none) := by
  refine ⟨rfl, rfl, ?_⟩
  exact C9_stop_idempotent c9txr rfl (by decide)

/-- Claim C10: the client handle is assigned by connect only after client
creation, login and useDatabase have all succeeded, so any failure leaves the
stored handle nil; and a fetch iteration that finds the handle nil re-runs the
full connect sequence, returning its error unchanged when it fails. -/
theorem C10_connect_atomic (txr : TxReplicator) (cenv : ConnectEnv)
    (hc : txr.clientConnected = false) :
    ((connect txr cenv).1 ≠ none → (connect txr cenv).2.clientConnected = false)
    ∧ ((connect txr cenv).1 = none
        ↔ cenv.newClientErr = none ∧ cenv.loginErr = none ∧ cenv.useDatabaseErr = none)
    ∧ (∀ env : FetchEnv, txr.running = true → env.connectEnv = cenv →
        (fetchNextTx txr env).effects.connectCalled = true
        ∧ ((connect txr cenv).1 ≠ none → (fetchNextTx txr env).err = (connect txr cenv).1)) := by
  refine ⟨?_, ?_, ?_⟩
  · intro h
    obtain ⟨nc, lg, ud⟩ := cenv
    unfold connect at *
    cases nc <;> cases lg <;> cases ud <;> simp_all
  · obtain ⟨nc, lg, ud⟩ := cenv
    unfold connect
    cases nc <;> cases lg <;> cases ud <;> simp
  · intro env hrun henv
    constructor
    · rw [fetchNextTx_running txr env hrun]
      cases hcn : (connect txr env.connectEnv).1 with
      | some e => rw [fetchConnected_connectErr txr env e hc hcn]
      | none =>
        rw [fetchConnected_connectOk txr env hc hcn]
        exact fetchWithClient_connectCalled _ env true
    · intro hne
      rw [fetchNextTx_running txr env hrun]
      cases hcn : (connect txr env.connectEnv).1 with
      | some e =>
        rw [fetchConnected_connectErr txr env e hc hcn]
        rw [henv] at hcn
        rw [hcn]
      | none =>
        rw [henv] at hcn
        exact absurd hcn hne

/-- Claim C10, witness: a connect sequence whose login step fails leaves the
handle nil, and the next fetch iteration re-runs connect and surfaces that
same error. -/
theorem C10_witness :
    c10txr.clientConnected = false
    ∧ c10cenv.loginErr = some (GoErr.errOther testErrMsg)
    ∧ (connect c10txr c10cenv).2.clientConnected = false
    ∧ (fetchNextTx c10txr c10env).effects.connectCalled = true
    ∧ (fetchNextTx c10txr c10env).err = (connect c10txr c10cenv).1 := by
  refine ⟨rfl, rfl, ?_, ?_, ?_⟩
  · exact (C10_connect_atomic c10txr c10cenv rfl).1 (by decide)
  · exact ((C10_connect_atomic c10txr c10cenv rfl).2.2 c10env rfl rfl).1
  · exact ((C10_connect_atomic c10txr c10cenv rfl).2.2 c10env rfl rfl).2 (by decide)

end Replication
